import Mathlib

/-!
# Verification of the qrexec daemon/agent core (qubes-core-admin)

Shallow embedding of the qrexec multiplexer sources
(`src/qrexec/qrexec_daemon.c`, `src/qrexec/qrexec_agent.c`,
`src/qrexec/buffer.c`, `src/qrexec/write_stdin.c`, `src/vchan/io.c`)
together with theorems settling the specification claims about them.

Conventions:
* C byte strings are `List Nat` (byte values 0..255); a field read as a
  NUL-terminated C string is represented by its bytes up to the first NUL.
* Machine integers are `Nat` / `Int`, with `% 2^32` made explicit where
  the C code relies on `uint32_t` wrap-around.
* A C function that can call `exit` is embedded as an `Option`-returning
  function, `none` meaning the process exits.
* Side effects on the OS (fork, close, signals, the actual `memcpy`) are
  reflected only insofar as the claims refer to them; emitted protocol
  frames are returned explicitly as lists.
-/

/- ## Constants from `src/qrexec/qrexec.h` -/
def MAX_FDS : Nat := 256

def MAX_CLIENTS : Nat := MAX_FDS

def MAX_DATA_CHUNK : Nat := 4096

/- Message-type enum from `qrexec.h`; the enum starts at 0x100 and counts up. -/
def MSG_CLIENT_TO_SERVER_EXEC_CMDLINE : Nat := 0x100

def MSG_CLIENT_TO_SERVER_JUST_EXEC : Nat := 0x101

def MSG_CLIENT_TO_SERVER_CONNECT_EXISTING : Nat := 0x102

def MSG_SERVER_TO_AGENT_CONNECT_EXISTING : Nat := 0x103

def MSG_SERVER_TO_AGENT_EXEC_CMDLINE : Nat := 0x104

def MSG_SERVER_TO_AGENT_JUST_EXEC : Nat := 0x105

def MSG_SERVER_TO_AGENT_INPUT : Nat := 0x106

def MSG_SERVER_TO_AGENT_CLIENT_END : Nat := 0x107

def MSG_XOFF : Nat := 0x108

def MSG_XON : Nat := 0x109

def MSG_AGENT_TO_SERVER_STDOUT : Nat := 0x10a

def MSG_AGENT_TO_SERVER_STDERR : Nat := 0x10b

def MSG_AGENT_TO_SERVER_EXIT_CODE : Nat := 0x10c

def MSG_AGENT_TO_SERVER_TRIGGER_CONNECT_EXISTING : Nat := 0x10d

def MSG_SERVER_TO_CLIENT_STDOUT : Nat := 0x10e

def MSG_SERVER_TO_CLIENT_STDERR : Nat := 0x10f

def MSG_SERVER_TO_CLIENT_EXIT_CODE : Nat := 0x110

/-- `sizeof(struct server_header)` = 3 × u32. -/
def SERVER_HDR_SIZE : Nat := 12

/-- `sizeof(struct trigger_connect_params)` = 64 + 32 + 32 bytes. -/
def TRIGGER_PARAMS_SIZE : Nat := 128

/-- Bytes of a Lean string literal (all our literals are ASCII). -/
def strBytes (s : String) : List Nat := s.toList.map Char.toNat

/- ## `sanitize_name` (`src/qrexec/qrexec_daemon.c:440`)

The C code walks a NUL-terminated string in place and keeps a byte iff it
is `a`-`z`, `A`-`Z`, `0`-`9`, `$`, `_`, `-`, `.` or space; every other
byte is overwritten with `_` (0x5f). The walk stops at the first NUL. -/
def sanitize_byte (b : Nat) : Nat :=
  if 97 ≤ b ∧ b ≤ 122 then b          -- 'a' .. 'z'
  else if 65 ≤ b ∧ b ≤ 90 then b      -- 'A' .. 'Z'
  else if 48 ≤ b ∧ b ≤ 57 then b      -- '0' .. '9'
  else if b = 36 ∨ b = 95 ∨ b = 45 ∨ b = 46 ∨ b = 32 then b  -- $ _ - . space
  else 95                              -- '_'

def sanitize_name : List Nat → List Nat
  | [] => []
  | b :: rest => if b = 0 then b :: rest else sanitize_byte b :: sanitize_name rest

/- ## Trigger parameter sanitization
(`handle_execute_predefined_command`, `qrexec_daemon.c:464`)

The daemon NUL-terminates each fixed-size field in place and then applies
`sanitize_name` to each of the three fields before handing them to the
forked `qrexec_policy` child. We model each field by its C-string bytes
(the bytes before the first NUL; `ENSURE_NULL_TERMINATED` guarantees the
NUL exists inside the fixed-size array). -/
structure TriggerParams where
  exec_index : List Nat
  target_vmname : List Nat
  ident : List Nat
deriving DecidableEq

def sanitize_trigger_params (p : TriggerParams) : TriggerParams :=
  { exec_index := sanitize_name p.exec_index
    target_vmname := sanitize_name p.target_vmname
    ident := sanitize_name p.ident }

/- ## Transport frame headers and daemon-side frame sanitization

`struct server_header { unsigned int type, client_id, len; }`. All three
fields are unsigned, so the C checks `len < 0` / `client_id < 0` in
`sanitize_message_from_agent` and `check_client_id_in_range` can never
fire; they are omitted from the embedding. -/
structure ServerHeader where
  type : Nat
  client_id : Nat
  len : Nat
deriving DecidableEq

/-- `check_client_id_in_range` (`qrexec_daemon.c:503`): `true` iff the
daemon does NOT exit, i.e. `client_id < MAX_CLIENTS`. -/
def check_client_id_in_range (untrusted_client_id : Nat) : Bool :=
  untrusted_client_id < MAX_CLIENTS

/-- `sanitize_message_from_agent` (`qrexec_daemon.c:513`): `true` iff the
daemon accepts the header; `false` iff it exits. Only the three data-bearing
types are length-checked; `TRIGGER_CONNECT_EXISTING` passes unconditionally,
`XOFF`/`XON` are only id-checked, and unknown types are fatal. -/
def sanitize_message_from_agent (h : ServerHeader) : Bool :=
  if h.type = MSG_AGENT_TO_SERVER_TRIGGER_CONNECT_EXISTING then
    true
  else if h.type = MSG_AGENT_TO_SERVER_STDOUT ∨
          h.type = MSG_AGENT_TO_SERVER_STDERR ∨
          h.type = MSG_AGENT_TO_SERVER_EXIT_CODE then
    check_client_id_in_range h.client_id && decide (h.len ≤ MAX_DATA_CHUNK)
  else if h.type = MSG_XOFF ∨ h.type = MSG_XON then
    check_client_id_in_range h.client_id
  else
    false

/- ## The vchan shared ring (`src/vchan/io.c`, `src/vchan/libvchan.h`)

One direction of the ring: a free-running `uint32_t` producer/consumer
pair, the ring size (1024 or 2048, a power of two), and the ring bytes.
The C index expressions are `uint32_t` arithmetic; we keep the indices as
`Nat` and apply `% 2^32` exactly where the subtraction happens. -/
def U32 : Nat := 2 ^ 32

structure RingDir where
  prod : Nat    -- *ctrl->prod, free-running uint32 (kept < 2^32)
  cons : Nat    -- *ctrl->cons
  size : Nat    -- ctrl->ring_size
  ring : List Nat  -- the ring bytes, length = size
deriving DecidableEq

/-- The `uint32_t` difference `prod - cons` used by both query functions. -/
def ringUsed (r : RingDir) : Nat := (r.prod + U32 - r.cons % U32) % U32

/-- `libvchan_data_ready` (`io.c:30`): `*rd_prod - *rd_cons`, no invariant
check of any kind. -/
def libvchan_data_ready (r : RingDir) : Nat := ringUsed r

/-- `libvchan_buffer_space` (`io.c:38`): `ring_size - (*wr_prod - *wr_cons)`
as a signed int (negative exactly when the invariant is violated). -/
def libvchan_buffer_space (r : RingDir) : Int :=
  (r.size : Int) - (ringUsed r : Int)

/-- Outcome of one `libvchan_read`/`libvchan_write` call. `stillWaiting`
means the C call is still blocked inside its `libvchan_wait` loop after
consuming every wake-up the environment provides — i.e. the call has not
returned. -/
inductive VchanOutcome where
  | ret (n : Int) (final : RingDir)
  | stillWaiting
deriving DecidableEq

/-- `libvchan_read` (`io.c:127`). `wakeups` is the sequence of outcomes of
successive `libvchan_wait` calls: `none` models `libvchan_wait` returning
a negative value (peer closed / event-channel error, C returns -1), and
`some r` models a wake-up after which the ring is observed in state `r`.
When data is available the call copies
`min(avail, size, contiguous-to-end)` bytes out of the ring and advances
the consumer. `do_notify` failure is not modelled (it would also return
-1); it cannot return 0 or block. -/
def libvchan_read (wakeups : List (Option RingDir)) (r : RingDir) (size : Nat) :
    VchanOutcome :=
  let avail := libvchan_data_ready r
  if avail = 0 then
    match wakeups with
    | [] => .stillWaiting
    | none :: _ => .ret (-1) r
    | some r2 :: rest => libvchan_read rest r2 size
  else
    let avail1 := min avail size
    let real_idx := Nat.land (r.cons % U32) (r.size - 1)
    let avail_contig := r.size - real_idx
    let amt := min avail1 avail_contig
    .ret (amt : Int) { r with cons := (r.cons + amt) % U32 }

/-- `libvchan_write` (`io.c:102`), symmetric to `libvchan_read`: blocks in
`libvchan_wait` while `buffer_space` is 0, then copies
`min(avail, size, contiguous)` bytes into the ring and advances the
producer. -/
def libvchan_write (wakeups : List (Option RingDir)) (r : RingDir) (size : Nat)
    (data : List Nat) : VchanOutcome :=
  let avail := Int.toNat (libvchan_buffer_space r)
  if avail = 0 then
    match wakeups with
    | [] => .stillWaiting
    | none :: _ => .ret (-1) r
    | some r2 :: rest => libvchan_write rest r2 size data
  else
      let avail1 := min avail size
      let real_idx := Nat.land (r.prod % U32) (r.size - 1)
      let avail_contig := r.size - real_idx
      let amt := min avail1 avail_contig
      .ret (amt : Int)
        { r with
          prod := (r.prod + amt) % U32
          ring := (r.ring.take real_idx) ++ data.take amt ++ r.ring.drop (real_idx + amt) }

/- ## Stream buffers (`src/qrexec/buffer.c`)

`total_mem` is the process-wide static counter; `limited_malloc` bumps it
BEFORE checking `total_mem > BUFFER_LIMIT` and exits on overflow, so after
any successful allocation `total_mem ≤ BUFFER_LIMIT`. `buffer_append` and
`buffer_remove` allocate the new backing store first and only then free
the old one, so the transient total counts both. -/
def BUFFER_LIMIT : Nat := 50000000

/-- `limited_malloc` (`buffer.c:29`): `none` = the process exits. -/
def limited_malloc (len total : Nat) : Option Nat :=
  if total + len > BUFFER_LIMIT then none else some (total + len)

/-- `limited_free` (`buffer.c:45`). -/
def limited_free (len total : Nat) : Nat := total - len

/-- The process-wide buffer state: the lengths of all live `struct buffer`s
(`b->buflen`) and the static `total_mem` counter. -/
structure BufState where
  bufs : List Nat
  total_mem : Nat
deriving DecidableEq

/-- Sum of `buffer_len` over all live buffers of the process. -/
def sumBufs (s : BufState) : Nat := s.bufs.sum

/-- One buffer operation of the process, acting on buffer number `i`. -/
inductive BufOp where
  | init                 -- buffer_init of a fresh buffer (buflen = 0)
  | append (i n : Nat)   -- buffer_append(&b_i, data, n)
  | remove (i n : Nat)   -- buffer_remove(&b_i, n)
  | free (i : Nat)       -- buffer_free(&b_i)
deriving DecidableEq

/-- Execute one buffer operation; `none` = the process exits inside
`limited_malloc`. An operation naming a buffer that does not exist is a
no-op (the C caller always passes a live buffer). `buffer_free` of a
buffer with `buflen = 0` frees nothing, which coincides with subtracting
its length 0. -/
def buffer_exec (s : BufState) : BufOp → Option BufState
  | .init => some ⟨s.bufs ++ [0], s.total_mem⟩
  | .append i n =>
    if i < s.bufs.length then
      let b := s.bufs.getD i 0
      (limited_malloc (n + b) s.total_mem).map
        (fun t1 => ⟨s.bufs.set i (n + b), limited_free b t1⟩)
    else some s
  | .remove i n =>
    if i < s.bufs.length then
      let b := s.bufs.getD i 0
      (limited_malloc (b - n) s.total_mem).map
        (fun t1 => ⟨s.bufs.set i (b - n), limited_free b t1⟩)
    else some s
  | .free i =>
    if i < s.bufs.length then
      some ⟨s.bufs.set i 0, limited_free (s.bufs.getD i 0) s.total_mem⟩
    else some s

/-- A whole run of buffer operations from the process start (no buffers,
`total_mem = 0`); `none` as soon as one operation exits. -/
def buffer_run (ops : List BufOp) : Option BufState :=
  ops.foldlM buffer_exec ⟨[], 0⟩

/- ## Client cmdline forwarding
(`get_cmdline_body_from_client_and_pass_to_agent`, `qrexec_daemon.c:233`)

The daemon reads `len` body bytes from the client, compares the first 8
bytes with `default_user_keyword = "DEFAULT:"` using `strncmp`, and on a
match forwards `default_user ++ body[7..]` (the slice starting at the
colon) with the length field adjusted by `strlen(default_user) - 7`;
otherwise it forwards the body unchanged. -/
/-- C `strncmp(a, b, n) == 0`: byte-wise comparison stopping at the first
difference, at a common NUL, or after `n` bytes. A string running out
before `n` bytes without a NUL is undefined behaviour in C; we model it
as a mismatch. -/
def cstrncmpEq : List Nat → List Nat → Nat → Bool
  | _, _, 0 => true
  | [], [], _ + 1 => true
  | [], _ :: _, _ + 1 => false
  | _ :: _, [], _ + 1 => false
  | x :: xs, y :: ys, n + 1 =>
    if x ≠ y then false
    else if x = 0 then true
    else cstrncmpEq xs ys n

/-- `default_user_keyword` without its trailing NUL. -/
def default_user_keyword : List Nat := strBytes "DEFAULT:"

/-- The (length field, payload bytes) the daemon passes to the agent for
one client cmdline body. On the `DEFAULT:` match the C code does
`s_hdr->len -= 7; s_hdr->len += strlen(default_user)` and then writes
`default_user` followed by `buf + 7` (`len - 7` bytes, starting at the
colon). -/
def get_cmdline_forward (default_user body : List Nat) : Nat × List Nat :=
  if cstrncmpEq body default_user_keyword 8 then
    (body.length - 7 + default_user.length, default_user ++ body.drop 7)
  else
    (body.length, body)

/- ## Framed transport writes (C7)

`handle_message_from_client` (`qrexec_daemon.c:294`) and the agent's
`handle_process_data` (`qrexec_agent.c:363`) both query
`buffer_space_vchan_ext()` first, bail out unless it exceeds
`sizeof(struct server_header)`, read at most `space - sizeof(header)`
payload bytes, and then write one header followed by that payload.
The cmdline path above, by contrast, performs its writes through the
blocking `write_all_vchan_ext` with no space precondition; the only gate
is the main loop's `buffer_space_vchan_ext() <= sizeof(struct
server_header)` check that stops reading client fds at all. -/
/-- The main-loop gate (`qrexec_daemon.c:653`): client fds are read only
when the transport window exceeds one header. -/
def daemon_reads_clients (space : Int) : Bool := SERVER_HDR_SIZE < space

/-- Data path of `handle_message_from_client`: `none` when the function
returns without writing; otherwise the (header size, payload size) of the
single framed write it issues. `clientAvail` is how much the client fd
has ready, so `read` returns `min (space - 12) clientAvail`. -/
def daemon_stream_write (space : Int) (clientAvail : Nat) : Option (Nat × Nat) :=
  if space ≤ (SERVER_HDR_SIZE : Int) then none
  else some (SERVER_HDR_SIZE, min (space - SERVER_HDR_SIZE).toNat clientAvail)

/-- Same shape for the agent's `handle_process_data` reading a child's
stdout/stderr pipe. -/
def agent_stream_write (space : Int) (pipeAvail : Nat) : Option (Nat × Nat) :=
  if space ≤ (SERVER_HDR_SIZE : Int) then none
  else some (SERVER_HDR_SIZE, min (space - SERVER_HDR_SIZE).toNat pipeAvail)

/-- Sizes of the `write_all_vchan_ext` calls issued while forwarding one
cmdline (header, then the payload in one or two chunks); the function has
no `buffer_space` precondition of its own. -/
def cmdline_vchan_write_sizes (default_user body : List Nat) : List Nat :=
  if cstrncmpEq body default_user_keyword 8 then
    [SERVER_HDR_SIZE, default_user.length, body.length - 7]
  else
    [SERVER_HDR_SIZE, body.length]

/- ## Agent per-client process state (`src/qrexec/qrexec_agent.c`)

One client_id's slice of the agent state: its `struct _client_info`
record plus the validity/blocked bits of its two `process_fd` entries.
`outFdOpen`/`errFdOpen` mirror `client_info[id].stdout_fd != -1` (used by
`possibly_remove_process`); `outValid`/`errValid` mirror
`process_fd[fd].type != FDTYPE_INVALID` (used by the event loop to decide
whether the pipe is still read). They coincide until `remove_process`,
which invalidates the `process_fd` entries but does not reset the
`client_info` fd fields. -/
structure CInfo where
  pid : Int            -- client_info[id].pid; 0 = no process
  stdinOpen : Bool     -- stdin_fd != -1
  outFdOpen : Bool     -- client_info stdout_fd != -1
  errFdOpen : Bool     -- client_info stderr_fd != -1
  outValid : Bool      -- process_fd entry for stdout still FDTYPE_STDOUT
  errValid : Bool      -- process_fd entry for stderr still FDTYPE_STDERR
  outBlocked : Bool    -- process_fd[stdout].is_blocked (XOFF from daemon)
  errBlocked : Bool
  is_exited : Bool
  exit_status : Int
  is_blocked : Bool    -- stdin write blocked, buffer in use
  closeAfterFlush : Bool  -- is_close_after_flush_needed
  buf : Nat            -- buffer_len(&client_info[id].buffer)
deriving DecidableEq

/-- Frames the agent sends to the daemon for this client_id (XON/XOFF
carry no client payload semantics relevant to the claims and are sent
with the *daemon's* flow-control ids by `write_stdin.c`; the claims C2,
C4, C10 quantify over STDOUT/STDERR/EXIT_CODE frames only). -/
inductive AFrame where
  | stdout (n : Nat)
  | stderr (n : Nat)
  | exitCode (status : Int)
deriving DecidableEq

/-- `create_info_about_client` (`qrexec_agent.c:160`). -/
def create_info_about_client (pid : Int) : CInfo :=
  ⟨pid, true, true, true, true, true, false, false, false, 0, false, false, 0⟩

/-- `send_exit_code` (`qrexec_agent.c:223`). -/
def send_exit_code (status : Int) : List AFrame := [AFrame.exitCode status]

/-- `remove_process` (`qrexec_agent.c:237`): a no-op when `pid == 0`;
otherwise sends the exit code unless `status == -1`, then zeroes the pid,
closes stdin, frees the buffer and invalidates every `process_fd` entry of
this client (it does NOT reset the `client_info` stdout/stderr fields). -/
def remove_process (c : CInfo) (status : Int) : CInfo × List AFrame :=
  if c.pid = 0 then (c, [])
  else
    ({ c with
        pid := 0, stdinOpen := false, is_blocked := false, buf := 0,
        outValid := false, errValid := false, outBlocked := false,
        errBlocked := false },
     if status ≠ -1 then send_exit_code status else [])

/-- `possibly_remove_process` (`qrexec_agent.c:271`): remove only once
both stdout and stderr have been drained AND the exit status is known. -/
def possibly_remove_process (c : CInfo) : CInfo × List AFrame :=
  if c.outFdOpen = false ∧ c.errFdOpen = false ∧ c.is_exited then
    remove_process c c.exit_status
  else (c, [])

/-- Result of the non-blocking `write(2)` inside `write_stdin`
(`write_stdin.c:61`), chosen by the environment. -/
inductive WS where
  | ok        -- everything written
  | buffered  -- EAGAIN after a partial write; remainder buffered, XOFF sent
  | error     -- write error other than EAGAIN
deriving DecidableEq

/-- What `handle_input` did: the updated record, the frames emitted, the
payload bytes consumed from the transport, and the bytes written to the
child's stdin. -/
structure InputRes where
  info : CInfo
  frames : List AFrame
  consumed : Nat
  writtenToStdin : Nat
deriving DecidableEq

/-- `handle_input` (`qrexec_agent.c:281`): always consumes the `len`
payload bytes first (`read_all_vchan_ext`), then bails out if no process
is attached; `len == 0` closes stdin (deferred if blocked); otherwise
`write_stdin` runs — appending to a non-empty buffer, or writing with
outcome `ws` (on `buffered`, `wpart < len` bytes went through before
EAGAIN; on `error`, `remove_process(id, 128)`). -/
def handle_input (c : CInfo) (len : Nat) (ws : WS) (wpart : Nat) : InputRes :=
  if c.pid = 0 then ⟨c, [], len, 0⟩
  else if len = 0 then
    if c.is_blocked then ⟨{ c with closeAfterFlush := true }, [], len, 0⟩
    else ⟨{ c with stdinOpen := false }, [], len, 0⟩
  else if c.buf ≠ 0 then
    ⟨{ c with buf := c.buf + len, is_blocked := true }, [], len, 0⟩
  else
    match ws with
    | .ok => ⟨c, [], len, len⟩
    | .buffered =>
      ⟨{ c with buf := len - wpart, is_blocked := true }, [], len, wpart⟩
    | .error =>
      let r := remove_process c 128
      ⟨r.1, r.2, len, 0⟩

/-- Result of the `read(2)` from a child pipe in `handle_process_data`:
`data n` models a positive return `n + 1`, `eofRead` a return of 0,
`errRead` a negative return. -/
inductive PipeRead where
  | data (n : Nat)
  | eofRead
  | errRead
deriving DecidableEq

/-- `handle_process_data` (`qrexec_agent.c:363`) for one already-selected
readable pipe of this client (stdout if `isOut`): a positive read emits
one data frame; a zero read emits a zero-length data frame, closes and
invalidates that pipe and calls `possibly_remove_process`; a failed read
calls `remove_process(id, 127)`. -/
def handle_process_data (c : CInfo) (isOut : Bool) (r : PipeRead) :
    CInfo × List AFrame :=
  match r with
  | .data n =>
    (c, [if isOut then AFrame.stdout (n + 1) else AFrame.stderr (n + 1)])
  | .eofRead =>
    let c2 := if isOut then { c with outFdOpen := false, outValid := false }
              else { c with errFdOpen := false, errValid := false }
    let pr := possibly_remove_process c2
    (pr.1, (if isOut then AFrame.stdout 0 else AFrame.stderr 0) :: pr.2)
  | .errRead => remove_process c 127

/-- Outcome of the flush attempt in `flush_client_data` chosen by the
environment (`write_stdin.c:32`). -/
inductive FlushOutcome where
  | ok     -- buffer fully drained, XON sent
  | more   -- EAGAIN again, stays blocked (buffer partially drained)
  | error  -- write error
deriving DecidableEq

/-- `flush_client_data_agent` (`qrexec_agent.c:483`). On a full drain the
deferred stdin close happens; on error `remove_process(id, 128)`. On
`more` the buffer has shrunk by some amount we do not track — its exact
length is irrelevant to the claims. -/
def flush_client_data_agent (c : CInfo) (fo : FlushOutcome) : CInfo × List AFrame :=
  match fo with
  | .ok =>
    if c.closeAfterFlush then
      ({ c with
          is_blocked := false, buf := 0, stdinOpen := false,
          closeAfterFlush := false }, [])
    else ({ c with is_blocked := false, buf := 0 }, [])
  | .more => (c, [])
  | .error => remove_process c 128

/-- `reap_children` (`qrexec_agent.c:436`) delivering this client's
`waitpid` status: store it, mark exited, try to remove. -/
def reap_child (c : CInfo) (status : Int) : CInfo × List AFrame :=
  possibly_remove_process { c with is_exited := true, exit_status := status }

/-- One environment event touching this client, as dispatched by the
agent main loop. -/
inductive AEvent where
  | input (len : Nat) (ws : WS) (wpart : Nat)  -- MSG_SERVER_TO_AGENT_INPUT
  | clientEnd                                  -- MSG_SERVER_TO_AGENT_CLIENT_END
  | outPipe (r : PipeRead)                     -- stdout fd selected readable
  | errPipe (r : PipeRead)                     -- stderr fd selected readable
  | reap (status : Int)                        -- SIGCHLD + waitpid hit this pid
  | flush (fo : FlushOutcome)                  -- stdin fd selected writable
deriving DecidableEq

/-- Guarded small-step of the agent loop for one client. `none` = the
event cannot fire in this state (its fd is not in the select set / no
record matches the pid) — mirroring `handle_process_data_all`,
`fill_fds_for_select` and `find_info`. -/
def agent_step (c : CInfo) : AEvent → Option (CInfo × List AFrame)
  | .input len ws wpart =>
    let r := handle_input c len ws wpart
    some (r.info, r.frames)
  | .clientEnd => some (remove_process c (-1))
  | .outPipe r =>
    if c.outValid = true ∧ c.outBlocked = false then
      some (handle_process_data c true r)
    else none
  | .errPipe r =>
    if c.errValid = true ∧ c.errBlocked = false then
      some (handle_process_data c false r)
    else none
  | .reap status => if c.pid ≠ 0 then some (reap_child c status) else none
  | .flush fo =>
    if c.pid ≠ 0 ∧ c.is_blocked = true then
      some (flush_client_data_agent c fo)
    else none

/-- Run a sequence of events, skipping the ones whose guard fails, and
collect every frame emitted for this client in order. -/
def agent_run (c : CInfo) : List AEvent → CInfo × List AFrame
  | [] => (c, [])
  | e :: rest =>
    match agent_step c e with
    | none => agent_run c rest
    | some (c2, fs) =>
      let r := agent_run c2 rest
      (r.1, fs ++ r.2)

def isExitFrame : AFrame → Bool
  | .exitCode _ => true
  | _ => false

/-- `true` iff any EXIT_CODE frame in the list is its last element. -/
def exitIsLast : List AFrame → Bool
  | [] => true
  | f :: rest => if isExitFrame f then rest.isEmpty else exitIsLast rest

/-- A client whose record can emit no further frame: no pid and both
`process_fd` entries invalidated. -/
def agentDead (c : CInfo) : Bool :=
  c.pid == 0 && !c.outValid && !c.errValid

/- ## Agent frame dispatch (`handle_server_data`, `qrexec_agent.c:324`)

The agent reads one header and dispatches on the type. There is NO length
validation anywhere on this path: every handler trusts `s_hdr.len`.
`none` = the agent exits (only for an unknown type). `newPid` is the pid
`do_fork_exec` produced for an EXEC message; `ws`/`wpart` parameterize the
stdin write exactly as in `handle_input`. -/
/-- `set_blocked_outerr` (`qrexec_agent.c:318`). -/
def set_blocked_outerr (c : CInfo) (val : Bool) : CInfo :=
  { c with outBlocked := val, errBlocked := val }

def agent_handle_server_data (c : CInfo) (h : ServerHeader) (newPid : Int)
    (ws : WS) (wpart : Nat) : Option (CInfo × List AFrame × Nat) :=
  if h.type = MSG_XON then some (set_blocked_outerr c false, [], 0)
  else if h.type = MSG_XOFF then some (set_blocked_outerr c true, [], 0)
  else if h.type = MSG_SERVER_TO_AGENT_CONNECT_EXISTING then
    some ({ create_info_about_client (-1) with is_exited := true }, [], h.len)
  else if h.type = MSG_SERVER_TO_AGENT_EXEC_CMDLINE then
    some (create_info_about_client newPid, [], h.len)
  else if h.type = MSG_SERVER_TO_AGENT_JUST_EXEC then
    some (c, [], h.len)
  else if h.type = MSG_SERVER_TO_AGENT_INPUT then
    let r := handle_input c h.len ws wpart
    some (r.info, r.frames, r.consumed)
  else if h.type = MSG_SERVER_TO_AGENT_CLIENT_END then
    some ((remove_process c (-1)).1, (remove_process c (-1)).2, 0)
  else none

/- ## Daemon frame dispatch (`handle_message_from_agent`,
`qrexec_daemon.c:541`)

State of the daemon's `clients` table: one `enum client_flags` word per
slot, indexed by client_id (CLIENT_INVALID = 0 means the slot is free).
The dispatch sanitizes the header (exit on failure), forks the policy
child for TRIGGER (consuming the fixed 128-byte body), applies XOFF/XON,
and for data frames either discards the payload when the slot is INVALID
or forwards it to the client with outcome `ws` from `write_stdin`
(`get_packet_data_from_agent_and_pass_to_client`), terminating the client
on EXIT_CODE. `terminate_client_and_flush_data` is modelled by its effect
on the table: the slot returns to CLIENT_INVALID. Returns
(new table, payload bytes consumed); `none` = daemon exits. -/
def CLIENT_INVALID : Nat := 0

def CLIENT_CMDLINE : Nat := 1

def CLIENT_DATA : Nat := 2

def CLIENT_DONT_READ : Nat := 4

def CLIENT_OUTQ_FULL : Nat := 8

def CLIENT_EOF : Nat := 16

def CLIENT_EXITED : Nat := 32

def handle_message_from_agent (cls : List Nat) (h : ServerHeader) (ws : WS) :
    Option (List Nat × Nat) :=
  if sanitize_message_from_agent h = false then none
  else if h.type = MSG_AGENT_TO_SERVER_TRIGGER_CONNECT_EXISTING then
    some (cls, TRIGGER_PARAMS_SIZE)
  else if h.type = MSG_XOFF then
    some (cls.set h.client_id (cls.getD h.client_id 0 ||| CLIENT_DONT_READ), 0)
  else if h.type = MSG_XON then
    some (cls.set h.client_id
      (cls.getD h.client_id 0 - (cls.getD h.client_id 0 &&& CLIENT_DONT_READ)), 0)
  else if h.type = MSG_AGENT_TO_SERVER_STDOUT ∨
          h.type = MSG_AGENT_TO_SERVER_STDERR ∨
          h.type = MSG_AGENT_TO_SERVER_EXIT_CODE then
    let st := cls.getD h.client_id 0
    if st = CLIENT_INVALID then
      some (cls, h.len)
    else
      let st1 :=
        if st &&& CLIENT_EXITED ≠ 0 then st
        else
          match ws with
          | .ok => st
          | .buffered => st ||| CLIENT_OUTQ_FULL
          | .error =>
            if st &&& CLIENT_EOF ≠ 0 then CLIENT_INVALID
            else st ||| CLIENT_EXITED
      let st2 := if h.type = MSG_AGENT_TO_SERVER_EXIT_CODE then CLIENT_INVALID
                 else st1
      some (cls.set h.client_id st2, h.len)
  else none

set_option maxRecDepth 4096

/-- C1 counterexample: on the trigger body of the claim, the daemon's
sanitization does NOT produce the service string `"foo_rm_-rf__"` claimed
by the spec: the space byte is inside the allowed alphabet
`[A-Za-z0-9$_.\- ]` and is therefore kept, not replaced. -/
theorem c1_sanitize_service_counterexample :
    sanitize_trigger_params
        { exec_index := strBytes "foo;rm -rf /"
          target_vmname := strBytes "vm1"
          ident := strBytes "0 1 2" } ≠
      { exec_index := strBytes "foo_rm_-rf__"
        target_vmname := strBytes "vm1"
        ident := strBytes "0 1 2" } := by
  decide

/-- C1 (amended): sanitizing the trigger body
`{service="foo;rm -rf /", target="vm1", ident="0 1 2"}` rewrites the
service field to `"foo_rm -rf _"` (`;` and `/` become `_`; the two spaces
match the alphabet and are kept) and leaves target and ident unchanged. -/
theorem c1_sanitize_amended :
    sanitize_trigger_params
        { exec_index := strBytes "foo;rm -rf /"
          target_vmname := strBytes "vm1"
          ident := strBytes "0 1 2" } =
      { exec_index := strBytes "foo_rm -rf _"
        target_vmname := strBytes "vm1"
        ident := strBytes "0 1 2" } := by
  decide

/-- C3 counterexample: with ring indices violating
`producer − consumer ≤ buffer_size` (producer 1029, consumer 0, size 1024)
`libvchan_data_ready` reports 1029 and `libvchan_read` simply performs
further ring I/O with those indices — it returns 10 bytes read and
advances the consumer — instead of treating the state as fatal. -/
theorem c3_ring_invariant_counterexample :
    libvchan_data_ready ⟨1029, 0, 1024, List.replicate 1024 7⟩ = 1029 ∧
    1024 < libvchan_data_ready ⟨1029, 0, 1024, List.replicate 1024 7⟩ ∧
    libvchan_read [] ⟨1029, 0, 1024, List.replicate 1024 7⟩ 10 =
      VchanOutcome.ret 10 ⟨1029, 10, 1024, List.replicate 1024 7⟩ := by
  decide

/-- C3 (amended): neither endpoint checks the ring invariant at all.
Whenever `libvchan_data_ready` is nonzero — even when it exceeds the ring
size, i.e. the invariant `producer − consumer ≤ buffer_size` is violated —
`libvchan_read` goes on to perform ring I/O with those indices: it returns
a positive byte count and advances the consumer index. There is no fatal
path for corrupt indices in `src/vchan/io.c`. -/
theorem c3_ring_invariant_amended (r : RingDir) (sz : Nat)
    (wk : List (Option RingDir)) (hsize : 0 < r.size) (hsz : 0 < sz)
    (hviol : r.size < libvchan_data_ready r) :
    ∃ amt : Nat, 0 < amt ∧
      libvchan_read wk r sz =
        VchanOutcome.ret (amt : Int) { r with cons := (r.cons + amt) % U32 } := by
  have havail : libvchan_data_ready r ≠ 0 := by omega
  have hland : Nat.land (r.cons % U32) (r.size - 1) ≤ r.size - 1 :=
    Nat.and_le_right
  refine ⟨min (min (libvchan_data_ready r) sz)
    (r.size - Nat.land (r.cons % U32) (r.size - 1)), ?_, ?_⟩
  · rw [Nat.lt_min, Nat.lt_min]
    omega
  · rw [libvchan_read.eq_def]
    rw [if_neg havail]

/-- C6 counterexample: the transport primitives are NOT non-blocking. With
an empty read ring `libvchan_read` does not return 0: it blocks inside its
`libvchan_wait` loop (and returns -1, not 0, if the wait reports peer
close); symmetrically `libvchan_write` on a full write ring blocks rather
than returning 0. -/
theorem c6_nonblocking_counterexample :
    libvchan_read [] ⟨0, 0, 1024, List.replicate 1024 0⟩ 5 =
      VchanOutcome.stillWaiting ∧
    libvchan_write [] ⟨1024, 0, 1024, List.replicate 1024 0⟩ 5 (strBytes "hello") =
      VchanOutcome.stillWaiting ∧
    libvchan_write [none] ⟨1024, 0, 1024, List.replicate 1024 0⟩ 5 (strBytes "hello") =
      VchanOutcome.ret (-1) ⟨1024, 0, 1024, List.replicate 1024 0⟩ ∧
    libvchan_read [] ⟨0, 0, 1024, List.replicate 1024 0⟩ 5 ≠
      VchanOutcome.ret 0 ⟨0, 0, 1024, List.replicate 1024 0⟩ := by
  decide

/-- C6 (amended): `libvchan_write` with no buffer space and `libvchan_read`
with no data available block in the `libvchan_wait` loop — with no wake-up
the call does not return at all, and a wait that reports peer close makes
it return -1 — they never return 0 in that situation. Callers obtain
non-blocking behaviour by querying `libvchan_buffer_space` /
`libvchan_data_ready` first (as the daemon and agent event loops do). -/
theorem c6_blocking_amended (r : RingDir) (sz : Nat) (data : List Nat) :
    (libvchan_buffer_space r ≤ 0 →
       libvchan_write [] r sz data = VchanOutcome.stillWaiting ∧
       libvchan_write [none] r sz data = VchanOutcome.ret (-1) r) ∧
    (libvchan_data_ready r = 0 →
       libvchan_read [] r sz = VchanOutcome.stillWaiting ∧
       libvchan_read [none] r sz = VchanOutcome.ret (-1) r) := by
  constructor
  · intro hsp
    have h0 : Int.toNat (libvchan_buffer_space r) = 0 := Int.toNat_of_nonpos hsp
    constructor
    · rw [libvchan_write.eq_def]; simp [h0]
    · rw [libvchan_write.eq_def]; simp [h0]
  · intro hrd
    constructor
    · rw [libvchan_read.eq_def]; simp [hrd]
    · rw [libvchan_read.eq_def]; simp [hrd]

/-- Witness for `c3_ring_invariant_amended` at the concrete corrupt ring
of the counterexample scenario. -/
theorem c3_ring_invariant_amended_witness :
    ∃ amt : Nat, 0 < amt ∧
      libvchan_read [] ⟨1029, 0, 1024, List.replicate 1024 7⟩ 10 =
        VchanOutcome.ret (amt : Int)
          { RingDir.mk 1029 0 1024 (List.replicate 1024 7) with
            cons := (0 + amt) % U32 } :=
  c3_ring_invariant_amended ⟨1029, 0, 1024, List.replicate 1024 7⟩ 10 []
    (by decide) (by decide) (by decide)

/-- Witness for `c6_blocking_amended` on a full write ring and an empty
read ring. -/
theorem c6_blocking_amended_witness :
    (libvchan_write [] ⟨1024, 0, 1024, List.replicate 1024 0⟩ 5 (strBytes "hi") =
       VchanOutcome.stillWaiting ∧
     libvchan_write [none] ⟨1024, 0, 1024, List.replicate 1024 0⟩ 5 (strBytes "hi") =
       VchanOutcome.ret (-1) ⟨1024, 0, 1024, List.replicate 1024 0⟩) ∧
    (libvchan_read [] ⟨0, 0, 1024, List.replicate 1024 0⟩ 5 =
       VchanOutcome.stillWaiting ∧
     libvchan_read [none] ⟨0, 0, 1024, List.replicate 1024 0⟩ 5 =
       VchanOutcome.ret (-1) ⟨0, 0, 1024, List.replicate 1024 0⟩) :=
  ⟨(c6_blocking_amended ⟨1024, 0, 1024, List.replicate 1024 0⟩ 5 (strBytes "hi")).1
      (by decide),
   (c6_blocking_amended ⟨0, 0, 1024, List.replicate 1024 0⟩ 5 (strBytes "hi")).2
      (by decide)⟩

theorem sum_set_add (l : List Nat) (i v : Nat) (h : i < l.length) :
    (l.set i v).sum + l.getD i 0 = l.sum + v := by
  induction l generalizing i with
  | nil => simp at h
  | cons a t ih =>
    cases i with
    | zero => simp [List.set, Nat.add_comm, Nat.add_left_comm]
    | succ j =>
      have hj : j < t.length := by simpa using h
      have := ih j hj
      simp only [List.set, List.sum_cons, List.getD_cons_succ]
      omega

theorem getD_le_sum (l : List Nat) (i : Nat) : l.getD i 0 ≤ l.sum := by
  induction l generalizing i with
  | nil => simp
  | cons a t ih =>
    cases i with
    | zero => simp
    | succ j =>
      have := ih j
      simp only [List.getD_cons_succ, List.sum_cons]
      omega

/-- The key preservation fact: a successful buffer operation keeps
`sum of buffer lengths = total_mem` and `total_mem ≤ BUFFER_LIMIT`. -/
theorem buffer_exec_inv (s s2 : BufState) (op : BufOp)
    (hsum : sumBufs s = s.total_mem) (hle : s.total_mem ≤ BUFFER_LIMIT)
    (hstep : buffer_exec s op = some s2) :
    sumBufs s2 = s2.total_mem ∧ s2.total_mem ≤ BUFFER_LIMIT := by
  cases op with
  | init =>
    simp only [buffer_exec, Option.some_inj] at hstep
    subst hstep
    exact ⟨by simpa [sumBufs] using hsum, hle⟩
  | append i n =>
    simp only [buffer_exec, limited_malloc, limited_free] at hstep
    by_cases hlen : i < s.bufs.length
    · rw [if_pos hlen] at hstep
      by_cases hgt : BUFFER_LIMIT < s.total_mem + (n + s.bufs.getD i 0)
      · rw [if_pos hgt] at hstep
        simp at hstep
      · rw [if_neg hgt] at hstep
        simp only [Option.map_some', Option.some_inj] at hstep
        subst hstep
        have hset := sum_set_add s.bufs i (n + s.bufs.getD i 0) hlen
        have hb := getD_le_sum s.bufs i
        simp only [sumBufs] at *
        constructor <;> omega
    · rw [if_neg hlen] at hstep
      simp only [Option.some_inj] at hstep
      subst hstep
      exact ⟨hsum, hle⟩
  | remove i n =>
    simp only [buffer_exec, limited_malloc, limited_free] at hstep
    by_cases hlen : i < s.bufs.length
    · rw [if_pos hlen] at hstep
      by_cases hgt : BUFFER_LIMIT < s.total_mem + (s.bufs.getD i 0 - n)
      · rw [if_pos hgt] at hstep
        simp at hstep
      · rw [if_neg hgt] at hstep
        simp only [Option.map_some', Option.some_inj] at hstep
        subst hstep
        have hset := sum_set_add s.bufs i (s.bufs.getD i 0 - n) hlen
        have hb := getD_le_sum s.bufs i
        simp only [sumBufs] at *
        constructor <;> omega
    · rw [if_neg hlen] at hstep
      simp only [Option.some_inj] at hstep
      subst hstep
      exact ⟨hsum, hle⟩
  | free i =>
    simp only [buffer_exec, limited_free] at hstep
    by_cases hlen : i < s.bufs.length
    · rw [if_pos hlen] at hstep
      simp only [Option.some_inj] at hstep
      subst hstep
      have hset := sum_set_add s.bufs i 0 hlen
      have hb := getD_le_sum s.bufs i
      simp only [sumBufs] at *
      constructor <;> omega
    · rw [if_neg hlen] at hstep
      simp only [Option.some_inj] at hstep
      subst hstep
      exact ⟨hsum, hle⟩

theorem buffer_foldlM_inv (ops : List BufOp) (s0 s : BufState)
    (hsum : sumBufs s0 = s0.total_mem) (hle : s0.total_mem ≤ BUFFER_LIMIT)
    (hrun : ops.foldlM buffer_exec s0 = some s) :
    sumBufs s = s.total_mem ∧ s.total_mem ≤ BUFFER_LIMIT := by
  induction ops generalizing s0 with
  | nil =>
    simp only [List.foldlM_nil, Option.pure_def, Option.some_inj] at hrun
    subst hrun
    exact ⟨hsum, hle⟩
  | cons op rest ih =>
    rw [List.foldlM_cons] at hrun
    cases hmid : buffer_exec s0 op with
    | none => rw [hmid] at hrun; simp at hrun
    | some s1 =>
      rw [hmid] at hrun
      have h1 := buffer_exec_inv s0 s1 op hsum hle hmid
      exact ih s1 h1.1 h1.2 hrun

/-- C5 counterexample: the strict bound of the claim fails at the cap
itself. A single `buffer_append` of exactly `BUFFER_LIMIT` bytes to a
fresh buffer succeeds (`limited_malloc` only exits on `total_mem >
BUFFER_LIMIT`), reaching a state whose buffer total is exactly
50,000,000 — not strictly below it. -/
theorem c5_buffer_cap_counterexample :
    buffer_run [BufOp.init, BufOp.append 0 50000000] =
      some ⟨[50000000], 50000000⟩ ∧
    ¬ sumBufs ⟨[50000000], 50000000⟩ < BUFFER_LIMIT := by
  constructor
  · rfl
  · decide

/-- C5 (amended): at every state reachable by buffer operations, the sum
of all live buffer lengths is AT MOST `BUFFER_LIMIT` (equality is
reachable, so "below" must weaken to "at most"); and any `buffer_append`
whose allocation would push `total_mem` over the cap makes the process
exit instead of growing the buffer. -/
theorem c5_buffer_cap_amended :
    (∀ ops s, buffer_run ops = some s → sumBufs s ≤ BUFFER_LIMIT) ∧
    (∀ s i n, i < s.bufs.length → BUFFER_LIMIT < s.total_mem + n →
       buffer_exec s (BufOp.append i n) = none) := by
  constructor
  · intro ops s hrun
    have h := buffer_foldlM_inv ops ⟨[], 0⟩ s (by simp [sumBufs]) (by simp) hrun
    omega
  · intro s i n hlen hover
    simp only [buffer_exec, limited_malloc]
    rw [if_pos hlen, if_pos (by omega)]
    rfl

/-- Witness for `c5_buffer_cap_amended`: a concrete run ending with total
3, and a concrete over-cap append that exits. -/
theorem c5_buffer_cap_amended_witness :
    sumBufs ⟨[3], 3⟩ ≤ BUFFER_LIMIT ∧
    buffer_exec ⟨[0], 0⟩ (BufOp.append 0 50000001) = none :=
  ⟨c5_buffer_cap_amended.1 [BufOp.init, BufOp.append 0 3] ⟨[3], 3⟩ rfl,
   c5_buffer_cap_amended.2 ⟨[0], 0⟩ 0 50000001 (by decide) (by decide)⟩

theorem cstrncmpEq_eq_take (pat : List Nat) (hnz : ∀ b ∈ pat, b ≠ 0) :
    ∀ s : List Nat, (cstrncmpEq s pat pat.length = true ↔ s.take pat.length = pat) := by
  induction pat with
  | nil => intro s; simp [cstrncmpEq]
  | cons p ps ih =>
    intro s
    have hp : p ≠ 0 := hnz p (List.mem_cons_self _ _)
    have hps : ∀ b ∈ ps, b ≠ 0 := fun b hb => hnz b (List.mem_cons_of_mem _ hb)
    rcases s with _ | ⟨a, s⟩
    · simp [cstrncmpEq]
    · by_cases hap : a = p
      · subst hap
        simp only [List.length_cons, cstrncmpEq, if_neg (by omega : ¬a ≠ a),
          if_neg hp, List.take_succ_cons, List.cons.injEq, true_and]
        exact ih hps s
      · simp [cstrncmpEq, hap]

/-- C8 (confirmed): a client body beginning with the 8 bytes `DEFAULT:`
is forwarded as the configured default user name followed by the body
from the colon on, the length field adjusted by
`strlen(default_user) - strlen("DEFAULT")`; any other body is forwarded
unchanged with its length unchanged. -/
theorem c8_default_user_rewrite (default_user body : List Nat) :
    (body.take 8 = default_user_keyword →
       get_cmdline_forward default_user body =
         (body.length + default_user.length - 7, default_user ++ body.drop 7)) ∧
    (body.take 8 ≠ default_user_keyword →
       get_cmdline_forward default_user body = (body.length, body)) := by
  have hlen : default_user_keyword.length = 8 := by decide
  have hnz : ∀ b ∈ default_user_keyword, b ≠ 0 := by decide
  have hiff := cstrncmpEq_eq_take default_user_keyword hnz body
  rw [hlen] at hiff
  constructor
  · intro hpre
    have h8 : 8 ≤ body.length := by
      have := congrArg List.length hpre
      simp [hlen] at this
      omega
    rw [get_cmdline_forward, if_pos (hiff.mpr hpre)]
    have : body.length - 7 + default_user.length =
        body.length + default_user.length - 7 := by omega
    rw [this]
  · intro hpre
    rw [get_cmdline_forward, if_neg ?_]
    intro hcmp
    exact hpre (hiff.mp hcmp)

/-- Witness for `c8_default_user_rewrite`: both branches at concrete
bodies, with default user `"user"`. -/
theorem c8_default_user_rewrite_witness :
    get_cmdline_forward (strBytes "user") (strBytes "DEFAULT:ls -l") =
      ((strBytes "DEFAULT:ls -l").length + (strBytes "user").length - 7,
        strBytes "user" ++ (strBytes "DEFAULT:ls -l").drop 7) ∧
    get_cmdline_forward (strBytes "user") (strBytes "root:ls -l") =
      ((strBytes "root:ls -l").length, strBytes "root:ls -l") :=
  ⟨(c8_default_user_rewrite (strBytes "user") (strBytes "DEFAULT:ls -l")).1
      (by decide),
   (c8_default_user_rewrite (strBytes "user") (strBytes "root:ls -l")).2
      (by decide)⟩

/-- C7 counterexample: the cmdline-forwarding path violates the claim.
With transport window 13 the main loop still reads client fds
(`daemon_reads_clients 13 = true`), and forwarding a 100-byte cmdline
body issues writes totalling 112 bytes — far more than the 13 bytes of
room `buffer_space` reports; the write is performed by the blocking
`write_all_vchan_ext` with no window check. -/
theorem c7_window_counterexample :
    daemon_reads_clients 13 = true ∧
    (cmdline_vchan_write_sizes (strBytes "user") (List.replicate 100 65)).sum
      = 112 ∧
    ¬ ((cmdline_vchan_write_sizes (strBytes "user")
        (List.replicate 100 65)).sum : Int) ≤ 13 := by
  refine ⟨rfl, ?_, ?_⟩ <;> decide

/-- C7 (amended): the DATA-path writes do satisfy the claim — both the
daemon's `handle_message_from_client` and the agent's
`handle_process_data` write one header plus a payload capped at
`buffer_space - sizeof(header)`, so header + payload fit the reported
window; control writes (cmdline forwarding, trigger, exit code, XON/XOFF)
go through the blocking `write_all_vchan_ext` without that precondition. -/
theorem c7_framed_write_amended (space : Int) (avail : Nat) :
    (∀ w, daemon_stream_write space avail = some w →
       w.1 = SERVER_HDR_SIZE ∧ (w.1 : Int) + w.2 ≤ space) ∧
    (∀ w, agent_stream_write space avail = some w →
       w.1 = SERVER_HDR_SIZE ∧ (w.1 : Int) + w.2 ≤ space) := by
  constructor
  · intro w hw
    rw [daemon_stream_write] at hw
    by_cases hsp : space ≤ (SERVER_HDR_SIZE : Int)
    · rw [if_pos hsp] at hw
      exact absurd hw (by simp)
    · rw [if_neg hsp] at hw
      simp only [Option.some_inj] at hw
      subst hw
      refine ⟨rfl, ?_⟩
      have hmin : min (space - (SERVER_HDR_SIZE : Int)).toNat avail ≤
          (space - (SERVER_HDR_SIZE : Int)).toNat := Nat.min_le_left _ _
      simp only [SERVER_HDR_SIZE] at *
      omega
  · intro w hw
    rw [agent_stream_write] at hw
    by_cases hsp : space ≤ (SERVER_HDR_SIZE : Int)
    · rw [if_pos hsp] at hw
      exact absurd hw (by simp)
    · rw [if_neg hsp] at hw
      simp only [Option.some_inj] at hw
      subst hw
      refine ⟨rfl, ?_⟩
      have hmin : min (space - (SERVER_HDR_SIZE : Int)).toNat avail ≤
          (space - (SERVER_HDR_SIZE : Int)).toNat := Nat.min_le_left _ _
      simp only [SERVER_HDR_SIZE] at *
      omega

/-- Witness for `c7_framed_write_amended` at window 100 with 4096 bytes
pending: the daemon frames 12 + 88 ≤ 100. -/
theorem c7_framed_write_amended_witness :
    ((SERVER_HDR_SIZE, 88) : Nat × Nat).1 = SERVER_HDR_SIZE ∧
    ((((SERVER_HDR_SIZE, 88) : Nat × Nat).1 : Int) +
      ((SERVER_HDR_SIZE, 88) : Nat × Nat).2 ≤ 100) :=
  (c7_framed_write_amended 100 4096).1 (SERVER_HDR_SIZE, 88) (by decide)

theorem remove_process_spec (c : CInfo) (st : Int) :
    exitIsLast (remove_process c st).2 = true ∧
    ((remove_process c st).2.any isExitFrame = true →
      agentDead (remove_process c st).1 = true) := by
  unfold remove_process send_exit_code
  split_ifs with hp hs
  · exact ⟨rfl, by simp⟩
  · exact ⟨rfl, fun _ => by simp [agentDead]⟩
  · exact ⟨rfl, by simp⟩

theorem possibly_remove_spec (c : CInfo) :
    exitIsLast (possibly_remove_process c).2 = true ∧
    ((possibly_remove_process c).2.any isExitFrame = true →
      agentDead (possibly_remove_process c).1 = true) := by
  unfold possibly_remove_process
  split_ifs with h
  · exact remove_process_spec c c.exit_status
  · exact ⟨rfl, by simp⟩

theorem handle_input_spec (c : CInfo) (len : Nat) (ws : WS) (wpart : Nat) :
    exitIsLast (handle_input c len ws wpart).frames = true ∧
    ((handle_input c len ws wpart).frames.any isExitFrame = true →
      agentDead (handle_input c len ws wpart).info = true) := by
  cases ws <;>
    (unfold handle_input
     split_ifs <;>
       first
         | exact ⟨rfl, by simp⟩
         | simpa using remove_process_spec c 128)

theorem handle_process_data_spec (c : CInfo) (isOut : Bool) (r : PipeRead) :
    exitIsLast (handle_process_data c isOut r).2 = true ∧
    ((handle_process_data c isOut r).2.any isExitFrame = true →
      agentDead (handle_process_data c isOut r).1 = true) := by
  cases r with
  | data n => cases isOut <;> exact ⟨rfl, by simp [handle_process_data, isExitFrame]⟩
  | eofRead =>
    cases isOut <;>
      · simp only [handle_process_data, List.any_cons, isExitFrame,
          Bool.false_or, exitIsLast, if_neg, Bool.false_eq_true,
          not_false_eq_true, List.isEmpty_eq_true]
        constructor
        · simpa using (possibly_remove_spec _).1
        · intro h
          simpa using (possibly_remove_spec _).2 (by simpa using h)
  | errRead => simpa [handle_process_data] using remove_process_spec c 127

theorem flush_client_data_agent_spec (c : CInfo) (fo : FlushOutcome) :
    exitIsLast (flush_client_data_agent c fo).2 = true ∧
    ((flush_client_data_agent c fo).2.any isExitFrame = true →
      agentDead (flush_client_data_agent c fo).1 = true) := by
  cases fo with
  | ok =>
    unfold flush_client_data_agent
    split_ifs <;> exact ⟨rfl, by simp⟩
  | more => exact ⟨rfl, by simp [flush_client_data_agent]⟩
  | error => simpa [flush_client_data_agent] using remove_process_spec c 128

theorem reap_child_spec (c : CInfo) (st : Int) :
    exitIsLast (reap_child c st).2 = true ∧
    ((reap_child c st).2.any isExitFrame = true →
      agentDead (reap_child c st).1 = true) :=
  possibly_remove_spec { c with is_exited := true, exit_status := st }

/-- Per-step frame discipline: every enabled agent event emits a frame
list in which an EXIT_CODE can only be last, and if it did emit an
EXIT_CODE the resulting record is dead. -/
theorem agent_step_spec (c : CInfo) (e : AEvent) (c2 : CInfo)
    (fs : List AFrame) (h : agent_step c e = some (c2, fs)) :
    exitIsLast fs = true ∧ (fs.any isExitFrame = true → agentDead c2 = true) := by
  cases e with
  | input len ws wpart =>
    simp only [agent_step, Option.some_inj, Prod.mk.injEq] at h
    obtain ⟨hc, hf⟩ := h
    subst hc; subst hf
    exact handle_input_spec c len ws wpart
  | clientEnd =>
    simp only [agent_step, Option.some_inj] at h
    rw [show c2 = (remove_process c (-1)).1 from by rw [h],
        show fs = (remove_process c (-1)).2 from by rw [h]]
    exact remove_process_spec c (-1)
  | outPipe r =>
    rw [agent_step] at h
    split_ifs at h
    simp only [Option.some_inj] at h
    rw [show c2 = (handle_process_data c true r).1 from by rw [h],
        show fs = (handle_process_data c true r).2 from by rw [h]]
    exact handle_process_data_spec c true r
  | errPipe r =>
    rw [agent_step] at h
    split_ifs at h
    simp only [Option.some_inj] at h
    rw [show c2 = (handle_process_data c false r).1 from by rw [h],
        show fs = (handle_process_data c false r).2 from by rw [h]]
    exact handle_process_data_spec c false r
  | reap status =>
    rw [agent_step] at h
    split_ifs at h
    simp only [Option.some_inj] at h
    rw [show c2 = (reap_child c status).1 from by rw [h],
        show fs = (reap_child c status).2 from by rw [h]]
    exact reap_child_spec c status
  | flush fo =>
    rw [agent_step] at h
    split_ifs at h
    simp only [Option.some_inj] at h
    rw [show c2 = (flush_client_data_agent c fo).1 from by rw [h],
        show fs = (flush_client_data_agent c fo).2 from by rw [h]]
    exact flush_client_data_agent_spec c fo

theorem agentDead_fields (c : CInfo) (hd : agentDead c = true) :
    c.pid = 0 ∧ c.outValid = false ∧ c.errValid = false := by
  simp only [agentDead, Bool.and_eq_true, beq_iff_eq, Bool.not_eq_true'] at hd
  exact ⟨hd.1.1, hd.1.2, hd.2⟩

/-- A dead record can fire no frame-emitting event: every event is either
disabled or a silent no-op. -/
theorem agent_step_dead (c : CInfo) (e : AEvent) (hd : agentDead c = true) :
    agent_step c e = none ∨ agent_step c e = some (c, []) := by
  obtain ⟨hp, ho, he⟩ := agentDead_fields c hd
  cases e with
  | input len ws wpart => right; simp [agent_step, handle_input, hp]
  | clientEnd => right; simp [agent_step, remove_process, hp]
  | outPipe r => left; simp [agent_step, ho]
  | errPipe r => left; simp [agent_step, he]
  | reap status => left; simp [agent_step, hp]
  | flush fo => left; simp [agent_step, hp]

theorem agent_run_dead (evs : List AEvent) (c : CInfo) (hd : agentDead c = true) :
    agent_run c evs = (c, []) := by
  induction evs with
  | nil => rfl
  | cons e rest ih =>
    rcases agent_step_dead c e hd with h | h <;>
      simp [agent_run, h, ih]

theorem exitIsLast_append_of_no_exit (fs rest : List AFrame)
    (h : fs.any isExitFrame = false) :
    exitIsLast (fs ++ rest) = exitIsLast rest := by
  induction fs with
  | nil => rfl
  | cons f t ih =>
    simp only [List.any_cons, Bool.or_eq_false_iff] at h
    simp only [List.cons_append, exitIsLast, h.1, Bool.false_eq_true,
      if_false]
    exact ih h.2

theorem agent_run_exitIsLast (evs : List AEvent) :
    ∀ c, exitIsLast (agent_run c evs).2 = true := by
  induction evs with
  | nil => intro c; rfl
  | cons e rest ih =>
    intro c
    cases hstep : agent_step c e with
    | none => simp only [agent_run, hstep]; exact ih c
    | some p =>
      obtain ⟨c2, fs⟩ := p
      have hspec := agent_step_spec c e c2 fs hstep
      simp only [agent_run, hstep]
      cases hex : fs.any isExitFrame with
      | true =>
        have hdead := hspec.2 hex
        rw [agent_run_dead rest c2 hdead]
        simpa using hspec.1
      | false =>
        rw [exitIsLast_append_of_no_exit fs _ hex]
        exact ih c2

/-- C4 counterexample: a stdin write error while the child's stdout and
stderr are still open and no exit status is known makes the agent emit
`EXIT_CODE 128` immediately (`handle_input` → `remove_process(id, 128)`),
violating the claim that EXIT_CODE is sent only after both streams are
closed and the status is known. In the post-state the `client_info`
stdout/stderr descriptors are still recorded open and `is_exited` is
false. -/
theorem c4_exit_code_counterexample :
    (agent_run (create_info_about_client 1) [AEvent.input 5 WS.error 0]).2 =
      [AFrame.exitCode 128] ∧
    (agent_run (create_info_about_client 1) [AEvent.input 5 WS.error 0]).1.outFdOpen
      = true ∧
    (agent_run (create_info_about_client 1) [AEvent.input 5 WS.error 0]).1.errFdOpen
      = true ∧
    (agent_run (create_info_about_client 1) [AEvent.input 5 WS.error 0]).1.is_exited
      = false := by
  decide

/-- C4 (amended): over one client session (record created by
`handle_exec`, pid 1), whatever events the environment delivers, an
EXIT_CODE frame — normal (`possibly_remove_process`, which does require
both streams drained and the status known) or synthesized early with
status 127/128 on read/write errors — is always the LAST
STDOUT/STDERR/EXIT_CODE frame the agent emits for that client_id:
`remove_process` zeroes the pid and invalidates both `process_fd`
entries, after which no frame-emitting path is reachable. -/
theorem c4_exit_code_last_amended (evs : List AEvent) :
    exitIsLast (agent_run (create_info_about_client 1) evs).2 = true :=
  agent_run_exitIsLast evs (create_info_about_client 1)

/-- C10 (confirmed): an INPUT frame of any length (0 included) for a
client whose record has `pid == 0` consumes exactly the payload and does
nothing else: record unchanged (no buffering, no stdin close), no frames,
nothing written to any stdin descriptor. -/
theorem c10_input_no_process (c : CInfo) (len : Nat) (ws : WS) (wpart : Nat)
    (hpid : c.pid = 0) :
    handle_input c len ws wpart = ⟨c, [], len, 0⟩ := by
  rw [handle_input.eq_def, if_pos hpid]

/-- Witness for `c10_input_no_process`: the post-`remove_process` record,
an INPUT of 7 bytes, and a would-be-successful write. -/
theorem c10_input_no_process_witness :
    handle_input (remove_process (create_info_about_client 1) (-1)).1 7 WS.ok 3 =
      ⟨(remove_process (create_info_about_client 1) (-1)).1, [], 7, 0⟩ :=
  c10_input_no_process (remove_process (create_info_about_client 1) (-1)).1 7
    WS.ok 3 (by decide)

/-- C2 counterexample: a frame with `length = 4097 > MAX_CHUNK` does NOT
always make the receiver exit. The daemon's
`sanitize_message_from_agent` length-checks only STDOUT/STDERR/EXIT_CODE:
an oversized TRIGGER_CONNECT_EXISTING header passes. And the agent
performs no length check at all: it processes an oversized INPUT frame
normally. -/
theorem c2_length_check_counterexample :
    sanitize_message_from_agent
      ⟨MSG_AGENT_TO_SERVER_TRIGGER_CONNECT_EXISTING, 0, 4097⟩ = true ∧
    agent_handle_server_data (create_info_about_client 1)
      ⟨MSG_SERVER_TO_AGENT_INPUT, 3, 4097⟩ 0 WS.ok 0 ≠ none := by
  decide

/-- C2 (amended): the length check exists only in the daemon and only for
the three data-bearing agent→daemon types: any STDOUT, STDERR or
EXIT_CODE header with `len > MAX_DATA_CHUNK` makes the daemon exit.
(Other types are not length-checked, and the agent never checks lengths
on daemon→agent frames.) -/
theorem c2_length_check_amended (h : ServerHeader)
    (htype : h.type = MSG_AGENT_TO_SERVER_STDOUT ∨
             h.type = MSG_AGENT_TO_SERVER_STDERR ∨
             h.type = MSG_AGENT_TO_SERVER_EXIT_CODE)
    (hlen : MAX_DATA_CHUNK < h.len) :
    sanitize_message_from_agent h = false := by
  have hd : decide (h.len ≤ MAX_DATA_CHUNK) = false := by
    simp only [decide_eq_false_iff_not]
    omega
  rcases htype with h1 | h1 | h1 <;>
    · rw [sanitize_message_from_agent, h1]
      simp [MSG_AGENT_TO_SERVER_STDOUT, MSG_AGENT_TO_SERVER_STDERR,
        MSG_AGENT_TO_SERVER_EXIT_CODE,
        MSG_AGENT_TO_SERVER_TRIGGER_CONNECT_EXISTING, hd]

/-- Witness for `c2_length_check_amended`: an EXIT_CODE header with
length 5000. -/
theorem c2_length_check_amended_witness :
    sanitize_message_from_agent ⟨MSG_AGENT_TO_SERVER_EXIT_CODE, 3, 5000⟩
      = false :=
  c2_length_check_amended ⟨MSG_AGENT_TO_SERVER_EXIT_CODE, 3, 5000⟩
    (Or.inr (Or.inr rfl)) (by decide)

/-- C9 (confirmed): a STDOUT/STDERR/EXIT_CODE frame whose client_id is in
range but whose slot is CLIENT_INVALID is not fatal: the daemon consumes
exactly the frame's `len` payload bytes and leaves the whole client table
unchanged. -/
theorem c9_invalid_client_discard (cls : List Nat) (h : ServerHeader)
    (ws : WS)
    (htype : h.type = MSG_AGENT_TO_SERVER_STDOUT ∨
             h.type = MSG_AGENT_TO_SERVER_STDERR ∨
             h.type = MSG_AGENT_TO_SERVER_EXIT_CODE)
    (hid : h.client_id < MAX_CLIENTS) (hlen : h.len ≤ MAX_DATA_CHUNK)
    (hinv : cls.getD h.client_id 0 = CLIENT_INVALID) :
    handle_message_from_agent cls h ws = some (cls, h.len) := by
  have hsan : sanitize_message_from_agent h = true := by
    rcases htype with h1 | h1 | h1 <;>
      · rw [sanitize_message_from_agent, h1]
        simp [MSG_AGENT_TO_SERVER_STDOUT, MSG_AGENT_TO_SERVER_STDERR,
          MSG_AGENT_TO_SERVER_EXIT_CODE,
          MSG_AGENT_TO_SERVER_TRIGGER_CONNECT_EXISTING,
          check_client_id_in_range, hid, hlen]
  have hinv2 : cls[h.client_id]?.getD 0 = CLIENT_INVALID := by
    simpa [List.getD] using hinv
  rcases htype with h1 | h1 | h1 <;>
    · rw [handle_message_from_agent, hsan, h1]
      simp [MSG_AGENT_TO_SERVER_STDOUT, MSG_AGENT_TO_SERVER_STDERR,
        MSG_AGENT_TO_SERVER_EXIT_CODE,
        MSG_AGENT_TO_SERVER_TRIGGER_CONNECT_EXISTING, MSG_XOFF, MSG_XON,
        hinv2]

/-- Witness for `c9_invalid_client_discard`: slot 1 of a small table is
CLIENT_INVALID; a 100-byte STDOUT frame for it is consumed and discarded. -/
theorem c9_invalid_client_discard_witness :
    handle_message_from_agent [2, 0] ⟨MSG_AGENT_TO_SERVER_STDOUT, 1, 100⟩
      WS.ok = some ([2, 0], 100) :=
  c9_invalid_client_discard [2, 0] ⟨MSG_AGENT_TO_SERVER_STDOUT, 1, 100⟩
    WS.ok (Or.inl rfl) (by decide) (by decide) (by decide)
